import Mathlib

/-!
Verification development for the visa-booking automation repository
(`src/core/orchestrator.js`, `src/core/session-manager.js`,
`src/utils/proxy-parser.js`, `src/index.js`).

The JavaScript is embedded shallowly: pure fragments become Lean
functions over `String`, `Nat`, `Int` and lists; each definition is a
direct transcription of the cited source lines, with JS strings as
`String`, JS arrays as `List`, and the numeric run counters as `Int`
(they are only ever incremented and decremented by 1).

The JS string builtins used by the source (`String.prototype.split`
with a one-character separator, `trim`, `includes` of a single
character) are embedded as structural functions over the character
list of a `String`, so that every definition evaluates by kernel
reduction on concrete inputs.
-/

namespace VisaBooking

/-! ## JS string builtins -/

/-- JS `s.split(sep)` for a one-character separator: splitting the empty
string yields `[""]`, and separators at the ends yield empty pieces,
exactly as in JS. -/
def jsSplitChars (sep : Char) : List Char → List (List Char)
  | [] => [[]]
  | x :: xs =>
    let rest := jsSplitChars sep xs
    if x == sep then
      [] :: rest
    else
      match rest with
      | [] => [[x]]
      | piece :: pieces => (x :: piece) :: pieces

/-- JS `s.split(sep)` for a one-character separator, on `String`. -/
def jsSplit (sep : Char) (s : String) : List String :=
  (jsSplitChars sep s.data).map String.mk

/-- JS `s.trim()`: strip whitespace from both ends. -/
def jsTrim (s : String) : String :=
  String.mk
    ((((s.data.dropWhile Char.isWhitespace).reverse.dropWhile
        Char.isWhitespace)).reverse)

/-- JS `s.includes(c)` for a one-character needle. -/
def jsIncludesChar (c : Char) (s : String) : Bool :=
  s.data.any (fun x => x == c)

/-! ## Proxy parsing (`src/utils/proxy-parser.js`, `parseProxy`, lines 308-348)

The source splits the trimmed line on `:`; fewer than 3 parts throws
`Invalid proxy format`.  If the 4th part exists and contains a `;` the
line is the SOAX layout: username is the 3rd part, password empty,
country is element 1 of the non-empty `;`-tokens of the 4th part
(`|| 'unknown'` when that element is absent).  Otherwise the standard
layout: username 3rd part, password the 4th part or empty, country
`"unknown"`.  The port is kept as the raw text of the 2nd field,
exactly as the source does (it never converts it to a number).
JS `parts[3]` being `undefined` and `parts[3]` being falsy (empty)
both make the `includes(';')` guard false, which `getD 3 ""` followed
by the `includes` test reproduces. -/

structure ProxyParsed where
  host : String
  port : String
  username : String
  password : String
  country : String
  format : String
  original : String
deriving Repr, DecidableEq

def parseProxy (proxyString : String) : Except String ProxyParsed :=
  let parts := jsSplit ':' (jsTrim proxyString)
  if parts.length < 3 then
    .error ("Invalid proxy format: " ++ proxyString)
  else
    let fourth := parts.getD 3 ""
    let isSoaxFormat := jsIncludesChar ';' fourth
    if isSoaxFormat then
      .ok { host := parts.getD 0 "", port := parts.getD 1 "",
            username := parts.getD 2 "", password := "",
            country := (((jsSplit ';' fourth).filter
              (fun p => !p.data.isEmpty)).get? 1).getD "unknown",
            format := "soax", original := proxyString }
    else
      .ok { host := parts.getD 0 "", port := parts.getD 1 "",
            username := parts.getD 2 "", password := fourth,
            country := "unknown", format := "standard",
            original := proxyString }

instance {ε α : Type} [DecidableEq ε] [DecidableEq α] : DecidableEq (Except ε α) := fun a b =>
  match a, b with
  | .ok x, .ok y =>
      if h : x = y then .isTrue (by rw [h]) else .isFalse (fun hc => by cases hc; exact h rfl)
  | .error x, .error y =>
      if h : x = y then .isTrue (by rw [h]) else .isFalse (fun hc => by cases hc; exact h rfl)
  | .ok _, .error _ => .isFalse (fun hc => by cases hc)
  | .error _, .ok _ => .isFalse (fun hc => by cases hc)

/-! ## Accounts, session results and run statistics
(`src/core/orchestrator.js`, `src/core/session-manager.js`)

A session result is the object returned by `SessionManager.execute`
or synthesized by `Orchestrator.processBatch`: a `status` string
(`success`, `failed`, `timeout` or `error`), the account username it
was produced for, the account email, and a message (the JS `reason`
field of a `failed` result or the `error` field of a `timeout`/`error`
result; empty for `success`, whose confirmation details the claims
never inspect).  The spec's `Outcome` shapes map onto `status`:
`Success` is `success`, `Failed{reason}` is `failed`, and
`Errored{kind, message}` covers `error` and the `timeout` kind, which
the source records as the distinct status string `timeout`. -/

structure Account where
  username : String
  email : String
deriving Repr, DecidableEq

inductive SessionStatus
  | success | failed | timeout | error
deriving Repr, DecidableEq

structure SessionResult where
  status : SessionStatus
  account : String
  email : String
  message : String
deriving Repr, DecidableEq

/-- The `stats` object of the `Orchestrator` constructor
(orchestrator.js lines 11-17): counters start at
`total = pending = accounts.length`, everything else 0.
Counters are `Int` so that the source's unguarded `pending--` is
represented exactly. -/
structure RunStats where
  total : Int
  success : Int
  failed : Int
  pending : Int
  errors : Int
deriving Repr, DecidableEq

def initStats (n : Nat) : RunStats :=
  { total := n, success := 0, failed := 0, pending := n, errors := 0 }

/-- `Orchestrator.processSessionResult` (orchestrator.js lines 161-212),
restricted to its effect on `stats`: decrement `pending`, then
increment `success` for a `success` status, `failed` for a `failed`
status, and `errors` for anything else (which covers both `error` and
`timeout`). -/
def processSessionResult (stats : RunStats) (r : SessionResult) : RunStats :=
  let stats := { stats with pending := stats.pending - 1 }
  match r.status with
  | .success => { stats with success := stats.success + 1 }
  | .failed => { stats with failed := stats.failed + 1 }
  | _ => { stats with errors := stats.errors + 1 }

/-- The cumulative effect of a run on `stats`: `run` processes every
batch in order and `processBatch` feeds each batch's results to
`processSessionResult` in order (orchestrator.js lines 50-72 and
145-155), so the final stats are a left fold of `processSessionResult`
over the concatenated result list, starting from the constructor's
initial stats for `n` accounts. -/
def runStats (n : Nat) (results : List SessionResult) : RunStats :=
  results.foldl processSessionResult (initStats n)

/-! ## Proxy assignment (`Orchestrator.processBatch`, lines 86-97, and
the batch loop of `Orchestrator.run`, lines 47-72) -/

/-- Lines 89-90: `proxyIndex = (batchNumber * parallelSessions + index)
% proxies.length`, used only when the proxy list is non-empty;
otherwise the proxy is `null`.  (With an empty list the JS `%` yields
`NaN` but the ternary guard never reads `proxies[NaN]`.) -/
def sessionProxy {α : Type} (batchNumber parallelSessions idx : Nat)
    (proxies : List α) : Option α :=
  if 0 < proxies.length then
    proxies.get? ((batchNumber * parallelSessions + idx) % proxies.length)
  else
    none

/-- The batch loop of `Orchestrator.run` (lines 47-60): `batchNumber`
starts at 0 and is incremented at the top of each iteration before
`processBatch(batch, batchNumber)` is called, and each iteration
splices `min(parallelSessions, queue.length)` accounts off the queue.
The loop runs at most one iteration per account whenever
`parallelSessions ≥ 1`, so it is totalized with the queue length as
fuel (for `parallelSessions = 0` the source loops forever).  Each list
entry is the `batchNumber` passed to `processBatch` paired with the
spliced batch. -/
def runBatchLoop (parallelSessions : Nat) :
    Nat → List Account → Nat → List (Nat × List Account)
  | 0, _, _ => []
  | _, [], _ => []
  | fuel + 1, queue@(_ :: _), batchNumber =>
    let batchSize := min parallelSessions queue.length
    (batchNumber + 1, queue.take batchSize) ::
      runBatchLoop parallelSessions fuel (queue.drop batchSize) (batchNumber + 1)

def runBatchPlan (parallelSessions : Nat) (accounts : List Account) :
    List (Nat × List Account) :=
  runBatchLoop parallelSessions accounts.length accounts 0

/-! ## Batch execution (`Orchestrator.processBatch`, lines 99-155)

Each session promise is raced against one shared timeout promise that
resolves `{timedOut: true}` after `sessionTimeoutMs`.  The behaviour of
one task's underlying session is abstracted as: it resolves with a
result at some time, it throws at some time (caught by the
`try`/`catch` inside the map callback, lines 105-138), it leaves the
callback's promise rejected despite that handling (the defensive
`Promise.allSettled` rejected branch, lines 147-152), or it never
settles. -/

inductive TaskBehavior
  | resolves (time : Nat) (r : SessionResult)
  | raises (time : Nat) (msg : String)
  | rejects (msg : Option String)
  | never
deriving Repr, DecidableEq

/-- The result recorded for a timed-out session (lines 117-125). -/
def timeoutResult (a : Account) : SessionResult :=
  { status := .timeout, account := a.username, email := a.email,
    message := "Session timeout" }

/-- The settlement of one callback promise from `sessions.map`
(lines 105-139): the race returns the session's own result (or its
caught error converted at lines 132-137) when the session settles
before the shared timeout fires, and the timeout result otherwise.
`Except.error` is a rejection that escapes the callback. -/
def sessionPromiseOutcome (timeoutMs : Nat) (a : Account)
    (b : TaskBehavior) : Except (Option String) SessionResult :=
  match b with
  | .resolves t r => if t < timeoutMs then .ok r else .ok (timeoutResult a)
  | .raises t msg =>
      if t < timeoutMs then
        .ok { status := .error, account := a.username, email := a.email,
              message := msg }
      else .ok (timeoutResult a)
  | .rejects msg => .error msg
  | .never => .ok (timeoutResult a)

/-- The `Promise.allSettled` post-processing (lines 142-152): a
fulfilled promise contributes its value; a rejected one is converted to
an error result with `reason?.message || 'Unknown error'`. -/
def settleResult (a : Account) (e : Except (Option String) SessionResult) :
    SessionResult :=
  match e with
  | .ok r => r
  | .error msg =>
      { status := .error, account := a.username, email := a.email,
        message := msg.getD "Unknown error" }

/-- The outcome list a batch hands to `processSessionResult`: one entry
per task, in task order. -/
def batchOutcomes (timeoutMs : Nat)
    (tasks : List (Account × TaskBehavior)) : List SessionResult :=
  tasks.map (fun t => settleResult t.1 (sessionPromiseOutcome timeoutMs t.1 t.2))

/-- Does this behaviour produce a settlement of the callback promise
strictly before the shared batch timeout fires?  (A rejection settles
the promise too; only a session that is still pending when the timeout
promise resolves loses the race.) -/
def producesOutcomeBefore (timeoutMs : Nat) : TaskBehavior → Bool
  | .resolves t _ => t < timeoutMs
  | .raises t _ => t < timeoutMs
  | .rejects _ => true
  | .never => false

/-- Does this behaviour get converted to an `error`-status outcome by
the batch machinery (a throw caught before the timeout, or a rejected
callback promise)? -/
def faultsAsError (timeoutMs : Nat) : TaskBehavior → Bool
  | .raises t _ => t < timeoutMs
  | .rejects _ => true
  | _ => false

/-! ## Booking (`SessionManager.bookAppointment`, session-manager.js
lines 616-727, identical in the variant copy, and the classification
tail of `SessionManager.execute`, lines 732-780)

The page surface is abstracted as: whether the initial
`waitForSelector('.calendar, .timeslots, table, .available,
[data-date]')` succeeds, which CSS selectors currently match (a
predicate consulted by the in-page `querySelector` loop), whether a
confirm button (`Confirmar`/`Marcar`) exists, and the confirmation
texts that would be extracted on success. -/

def slotSelectors : List String :=
  [".available-date:not(.disabled)",
   ".calendar-day.available",
   "td.available:not(.disabled)",
   "a.available",
   "[data-available=\x22true\x22]",
   ".slot-available",
   "button.available:not(:disabled)"]

structure BookingPage where
  calendarAppears : Bool
  present : String → Bool
  confirmPresent : Bool
  confNumber : String
  confDate : String
  confTime : String

structure BookingResult where
  success : Bool
  reason : String
  number : String
  date : String
  time : String
deriving Repr, DecidableEq

/-- The engine-generated message of the thrown `waitForSelector`
timeout; its exact text is produced by the browser-automation
collaborator and is irrelevant to every claim. -/
def waitForSelectorTimeoutMessage : String :=
  "waiting for selector failed: timeout exceeded"

/-- `bookAppointment`: the first selector in `slotSelectors` that
matches wins (`find?` mirrors the in-page `for` loop over
`querySelector`); no match returns the business failure
`{success: false, reason: 'No slots available'}` (line 653); a match
followed by a missing confirm button throws
`'Confirm button not found'` (line 692), which the function's own
`catch` (lines 722-726) converts to `{success: false, reason:
error.message}` — as it also does for a failed initial
`waitForSelector`.  The time-slot click (lines 660-672) does not
affect the result shape. -/
def bookAppointment (page : BookingPage) : BookingResult :=
  if !page.calendarAppears then
    { success := false, reason := waitForSelectorTimeoutMessage,
      number := "", date := "", time := "" }
  else
    match slotSelectors.find? page.present with
    | none =>
        { success := false, reason := "No slots available",
          number := "", date := "", time := "" }
    | some _ =>
        if page.confirmPresent then
          { success := true, reason := "",
            number := page.confNumber, date := page.confDate,
            time := page.confTime }
        else
          { success := false, reason := "Confirm button not found",
            number := "", date := "", time := "" }

/-- The tail of `SessionManager.execute` (lines 743-765), reached when
every step before booking succeeded: a successful booking result
becomes a `success`-status session result, any other becomes a
`failed`-status result carrying the booking reason. -/
def classifyBookingResult (a : Account) (r : BookingResult) : SessionResult :=
  if r.success then
    { status := .success, account := a.username, email := a.email,
      message := "" }
  else
    { status := .failed, account := a.username, email := a.email,
      message := r.reason }

def executeBookingOutcome (a : Account) (page : BookingPage) : SessionResult :=
  classifyBookingResult a (bookAppointment page)

/-! ## Retry pass (`Orchestrator.retryFailed`, lines 262-284) and the
entry point (`src/index.js`, `main`, lines 12-79) -/

/-- Is this result selected for the retry pass
(`r.status === 'error' || r.status === 'timeout'`, line 264)? -/
def isRetryStatus (r : SessionResult) : Bool :=
  r.status == .error || r.status == .timeout

/-- Lines 263-266: filter the error/timeout results, look each
recorded account name up in the loaded account list with
`accounts.find(a => a.username === r.account)` (first match wins), and
drop lookups that found nothing (`.filter(Boolean)`); `map` followed
by `filter(Boolean)` is `filterMap`. -/
def retryAccounts (accounts : List Account)
    (results : List SessionResult) : List Account :=
  (results.filter isRetryStatus).filterMap
    (fun r => accounts.find? (fun a => a.username == r.account))

/-- Lines 281-283: merge the retry orchestrator's stats into the
parent's `success`, `failed` and `errors`; `total` and `pending` are
left untouched. -/
def mergeRetryStats (parent retry : RunStats) : RunStats :=
  { parent with success := parent.success + retry.success,
                failed := parent.failed + retry.failed,
                errors := parent.errors + retry.errors }

/-- The number of `success`-status results in a list. -/
def countSuccess (results : List SessionResult) : Nat :=
  results.countP (fun r => r.status == .success)

/-- One end-to-end execution of `main` (index.js lines 12-79),
abstracted over what the collaborators do: whether
`config.validate()` succeeds, the loaded account list, the parent
run's session results (one per account), the configured
`retryAttempts`, and the results of the retry run should one occur.
The retry pass itself calls plain `Orchestrator.run` (line 278) and
never `retryFailed`, so it contributes exactly one further result
list. -/
structure MainScenario where
  configValid : Bool
  accounts : List Account
  parentResults : List SessionResult
  retryAttempts : Nat
  retryResults : List SessionResult

/-- The parent orchestrator's stats after its own run. -/
def parentStats (sc : MainScenario) : RunStats :=
  runStats sc.accounts.length sc.parentResults

/-- The stats `main` consults for the exit code: the parent stats,
with the retry run's stats merged in when `config.retryAttempts > 0 &&
orchestrator.stats.errors > 0` (index.js line 60) triggered
`retryFailed`. -/
def finalStats (sc : MainScenario) : RunStats :=
  if 0 < sc.retryAttempts ∧ 0 < (parentStats sc).errors then
    mergeRetryStats (parentStats sc)
      (runStats (retryAccounts sc.accounts sc.parentResults).length
        sc.retryResults)
  else
    parentStats sc

/-- The process exit code of `main`: 1 when `config.validate()` throws
or the account list is empty (both caught by the fatal `catch`,
lines 40-42 and 72-79), otherwise `stats.success > 0 ? 0 : 1`
(line 68). -/
def mainExitCode (sc : MainScenario) : Nat :=
  if !sc.configValid then 1
  else if sc.accounts.length == 0 then 1
  else if 0 < (finalStats sc).success then 0
  else 1

/-- How many `success` outcomes were recorded across the whole
process: none if the run aborted before any task started, otherwise
the parent run's successes plus the retry run's successes when the
retry pass ran. -/
def recordedSuccesses (sc : MainScenario) : Nat :=
  if sc.configValid && !(sc.accounts.length == 0) then
    countSuccess sc.parentResults +
      (if 0 < sc.retryAttempts ∧ 0 < (parentStats sc).errors then
        countSuccess sc.retryResults
      else 0)
  else 0

/-! ## Helper lemmas about the stats fold -/

theorem processSessionResult_total (st : RunStats) (r : SessionResult) :
    (processSessionResult st r).total = st.total := by
  unfold processSessionResult
  cases hr : r.status <;> simp [hr]

theorem processSessionResult_pending (st : RunStats) (r : SessionResult) :
    (processSessionResult st r).pending = st.pending - 1 := by
  unfold processSessionResult
  cases hr : r.status <;> simp [hr]

theorem processSessionResult_sum (st : RunStats) (r : SessionResult) :
    (processSessionResult st r).success + (processSessionResult st r).failed
      + (processSessionResult st r).errors + (processSessionResult st r).pending
    = st.success + st.failed + st.errors + st.pending := by
  unfold processSessionResult
  cases hr : r.status <;> simp [hr] <;> ring

theorem processSessionResult_success (st : RunStats) (r : SessionResult) :
    (processSessionResult st r).success
      = st.success + (if r.status == .success then 1 else 0) := by
  unfold processSessionResult
  cases hr : r.status <;> simp [hr]

theorem foldl_stats_total (rs : List SessionResult) (st : RunStats) :
    (rs.foldl processSessionResult st).total = st.total := by
  induction rs generalizing st with
  | nil => rfl
  | cons r rest ih => rw [List.foldl_cons, ih, processSessionResult_total]

theorem foldl_stats_pending (rs : List SessionResult) (st : RunStats) :
    (rs.foldl processSessionResult st).pending = st.pending - rs.length := by
  induction rs generalizing st with
  | nil => simp
  | cons r rest ih =>
      rw [List.foldl_cons, ih, processSessionResult_pending]
      simp only [List.length_cons]
      omega

theorem foldl_stats_sum (rs : List SessionResult) (st : RunStats) :
    (rs.foldl processSessionResult st).success
      + (rs.foldl processSessionResult st).failed
      + (rs.foldl processSessionResult st).errors
      + (rs.foldl processSessionResult st).pending
    = st.success + st.failed + st.errors + st.pending := by
  induction rs generalizing st with
  | nil => rfl
  | cons r rest ih => rw [List.foldl_cons, ih, processSessionResult_sum]

theorem foldl_stats_success (rs : List SessionResult) (st : RunStats) :
    (rs.foldl processSessionResult st).success
      = st.success + countSuccess rs := by
  induction rs generalizing st with
  | nil => simp [countSuccess]
  | cons r rest ih =>
      rw [List.foldl_cons, ih, processSessionResult_success]
      simp [countSuccess, List.countP_cons]
      cases hr : r.status
      all_goals simp [hr]
      all_goals ring

theorem runStats_invariant (n : Nat) (rs : List SessionResult) :
    (runStats n rs).success + (runStats n rs).failed + (runStats n rs).errors
      + (runStats n rs).pending = (runStats n rs).total := by
  unfold runStats
  rw [foldl_stats_sum, foldl_stats_total]
  simp [initStats]

theorem runStats_complete (n : Nat) (rs : List SessionResult)
    (h : rs.length = n) :
    (runStats n rs).success + (runStats n rs).failed + (runStats n rs).errors
      = (runStats n rs).total := by
  have hsum := runStats_invariant n rs
  have hp : (runStats n rs).pending = 0 := by
    unfold runStats
    rw [foldl_stats_pending]
    simp [initStats, h]
  rw [hp] at hsum
  omega

/-! ## Helper lemmas about the batch loop and the retry lookup -/

theorem runBatchLoop_fst (ps : Nat) :
    ∀ (fuel : Nat) (q : List Account) (b0 i : Nat) (x : Nat × List Account),
      (runBatchLoop ps fuel q b0).get? i = some x → x.1 = b0 + i + 1 := by
  intro fuel
  induction fuel with
  | zero =>
      intro q b0 i x h
      simp [runBatchLoop] at h
  | succ n ih =>
      intro q b0 i x h
      cases q with
      | nil => simp [runBatchLoop] at h
      | cons a rest =>
          rw [runBatchLoop] at h
          cases i with
          | zero =>
              rw [List.get?_cons_zero] at h
              injection h with h
              rw [← h]
          | succ j =>
              rw [List.get?_cons_succ] at h
              have := ih _ _ j x h
              omega

theorem find_username_self (accounts : List Account) (a : Account)
    (hnodup : (accounts.map (fun x => x.username)).Nodup) (ha : a ∈ accounts) :
    accounts.find? (fun x => x.username == a.username) = some a := by
  induction accounts with
  | nil => cases ha
  | cons b rest ih =>
      rw [List.map_cons, List.nodup_cons] at hnodup
      rcases List.mem_cons.mp ha with rfl | hmem
      · exact List.find?_cons_of_pos _ (by simp)
      · by_cases hb : b.username = a.username
        · exact absurd (hb ▸ List.mem_map.mpr ⟨a, hmem, rfl⟩) hnodup.1
        · rw [List.find?_cons_of_neg _ (by simp [hb])]
          exact ih hnodup.2 hmem

theorem retry_filterMap_zip (accounts : List Account) :
    ∀ (L : List (Account × SessionResult)),
      (∀ p ∈ L, accounts.find? (fun x => x.username == p.2.account) = some p.1) →
      ((L.map Prod.snd).filter isRetryStatus).filterMap
          (fun r => accounts.find? (fun x => x.username == r.account))
        = (L.filter (fun p => isRetryStatus p.2)).map Prod.fst := by
  intro L
  induction L with
  | nil => intro _; rfl
  | cons p rest ih =>
      intro h
      have hp := h p (List.mem_cons_self _ _)
      have hrest := ih (fun q hq => h q (List.mem_cons_of_mem _ hq))
      rw [List.map_cons, List.filter_cons, List.filter_cons]
      by_cases hr : isRetryStatus p.2 = true
      · rw [if_pos hr, if_pos hr, List.filterMap_cons, hp, hrest, List.map_cons]
      · rw [if_neg hr, if_neg hr, hrest]

/-! ## Claim theorems -/

/-- Claim C1, counterexample: the claim predicts proxy index
`(b*batchSize+t) mod len(P)` with a 0-based batch index, so the very
first task of a run with batch size 5 and 3 proxies would get proxy 0.
In the source the batch loop increments `batchNumber` before calling
`processBatch`, so the first batch runs with `batchNumber = 1` and the
first task gets proxy index `(1*5+0) % 3 = 2`, not 0. -/
theorem spec_C1_counterexample :
    ((runBatchPlan 5 (List.replicate 12 { username := "u", email := "e" })).get? 0).map
        Prod.fst = some 1
    ∧ sessionProxy 1 5 0 ["p0", "p1", "p2"] = some "p2"
    ∧ ¬ sessionProxy 1 5 0 ["p0", "p1", "p2"] = some "p0" := by
  refine ⟨by decide, by decide, by decide⟩

/-- Claim C1, amended: proxy assignment is deterministic round-robin
with a 1-based batch number: the 0-based b-th batch of the run is
processed with `batchNumber = b + 1`, task t of that batch receives
proxy number `((b+1)*batchSize + t) mod len(P)` when the proxy list P
is non-empty (an always-in-range index), and `None` when P is empty, in
which case the task runs proxy-less. -/
theorem spec_C1_round_robin {α : Type} (ps : Nat) (accounts : List Account)
    (b t : Nat) (proxies : List α) (hne : proxies ≠ []) :
    (∀ x, (runBatchPlan ps accounts).get? b = some x → x.1 = b + 1)
    ∧ sessionProxy (b + 1) ps t proxies
        = proxies.get? (((b + 1) * ps + t) % proxies.length)
    ∧ ((b + 1) * ps + t) % proxies.length < proxies.length
    ∧ sessionProxy (b + 1) ps t ([] : List α) = none := by
  have hlen : 0 < proxies.length := List.length_pos.mpr hne
  refine ⟨?_, ?_, Nat.mod_lt _ hlen, rfl⟩
  · intro x h
    have := runBatchLoop_fst ps accounts.length accounts 0 b x h
    omega
  · unfold sessionProxy
    rw [if_pos hlen]

theorem spec_C1_witness :
    (["p0", "p1", "p2"] : List String) ≠ []
    ∧ sessionProxy (0 + 1) 5 0 ["p0", "p1", "p2"]
        = ["p0", "p1", "p2"].get? (((0 + 1) * 5 + 0) % 3) := by
  refine ⟨by decide, ?_⟩
  exact (spec_C1_round_robin 5 [] 0 0 ["p0", "p1", "p2"] (by decide)).2.1

/-- Claim C2, counterexample: the claim says that after a full run
including a retry pass `success + failed + errored == total`.  With one
account whose session errors in the parent run and errors again in the
retry run, the merged stats have `errors = 2` but `total = 1`, because
`retryFailed` adds the retry run's `success`/`failed`/`errors` to the
parent's but never its `total`. -/
theorem spec_C2_counterexample :
    (finalStats
        { configValid := true,
          accounts := [{ username := "u", email := "e" }],
          parentResults :=
            [{ status := .error, account := "u", email := "e", message := "boom" }],
          retryAttempts := 1,
          retryResults :=
            [{ status := .error, account := "u", email := "e", message := "boom" }] }).success
      + (finalStats
        { configValid := true,
          accounts := [{ username := "u", email := "e" }],
          parentResults :=
            [{ status := .error, account := "u", email := "e", message := "boom" }],
          retryAttempts := 1,
          retryResults :=
            [{ status := .error, account := "u", email := "e", message := "boom" }] }).failed
      + (finalStats
        { configValid := true,
          accounts := [{ username := "u", email := "e" }],
          parentResults :=
            [{ status := .error, account := "u", email := "e", message := "boom" }],
          retryAttempts := 1,
          retryResults :=
            [{ status := .error, account := "u", email := "e", message := "boom" }] }).errors
      ≠ (finalStats
        { configValid := true,
          accounts := [{ username := "u", email := "e" }],
          parentResults :=
            [{ status := .error, account := "u", email := "e", message := "boom" }],
          retryAttempts := 1,
          retryResults :=
            [{ status := .error, account := "u", email := "e", message := "boom" }] }).total := by
  decide

/-- Claim C2, amended: `success + failed + errors + pending == total`
holds at every observation point within a single run — after any list
of processed results whatsoever, in particular after every prefix of a
run's result list, where `pending` is still positive mid-run; after a
run that processed one result per account `success + failed + errors ==
total`; the retry merge adds the retry run's `success`/`failed`/`errors`
but not its `total`, so the merged stats of a parent over n accounts and
a retry over k accounts satisfy `success + failed + errors == n + k`
while `total` stays `n`. -/
theorem spec_C2_stats (n k : Nat) (rs qs : List SessionResult) :
    ((runStats n rs).success + (runStats n rs).failed + (runStats n rs).errors
        + (runStats n rs).pending = (runStats n rs).total)
    ∧ (∀ j, (runStats n (rs.take j)).success + (runStats n (rs.take j)).failed
        + (runStats n (rs.take j)).errors + (runStats n (rs.take j)).pending
        = (runStats n (rs.take j)).total)
    ∧ (rs.length = n →
        (runStats n rs).success + (runStats n rs).failed + (runStats n rs).errors
          = (runStats n rs).total)
    ∧ (rs.length = n → qs.length = k →
        (mergeRetryStats (runStats n rs) (runStats k qs)).success
          + (mergeRetryStats (runStats n rs) (runStats k qs)).failed
          + (mergeRetryStats (runStats n rs) (runStats k qs)).errors
          = (n : Int) + (k : Int)
        ∧ (mergeRetryStats (runStats n rs) (runStats k qs)).total = (n : Int)) := by
  have htot : (runStats n rs).total = (n : Int) := by
    unfold runStats
    rw [foldl_stats_total]
    rfl
  have htot2 : (runStats k qs).total = (k : Int) := by
    unfold runStats
    rw [foldl_stats_total]
    rfl
  refine ⟨runStats_invariant n rs, fun j => runStats_invariant n (rs.take j),
    fun hrs => runStats_complete n rs hrs, fun hrs hqs => ⟨?_, ?_⟩⟩
  · have h2 := runStats_complete n rs hrs
    have h3 := runStats_complete k qs hqs
    unfold mergeRetryStats
    simp only
    rw [htot] at h2
    rw [htot2] at h3
    omega
  · unfold mergeRetryStats
    simpa using htot

theorem spec_C2_witness :
    ((runStats 2
        [{ status := .success, account := "u", email := "e", message := "" }]).success
      + (runStats 2
        [{ status := .success, account := "u", email := "e", message := "" }]).failed
      + (runStats 2
        [{ status := .success, account := "u", email := "e", message := "" }]).errors
      + (runStats 2
        [{ status := .success, account := "u", email := "e", message := "" }]).pending
      = (runStats 2
        [{ status := .success, account := "u", email := "e", message := "" }]).total)
    ∧ (runStats 2
        [{ status := .success, account := "u", email := "e", message := "" }]).pending = 1
    ∧ ((runStats 1
        [{ status := .success, account := "u", email := "e", message := "" }]).success
      + (runStats 1
        [{ status := .success, account := "u", email := "e", message := "" }]).failed
      + (runStats 1
        [{ status := .success, account := "u", email := "e", message := "" }]).errors
      = (runStats 1
        [{ status := .success, account := "u", email := "e", message := "" }]).total)
    ∧ (mergeRetryStats
        (runStats 1
          [{ status := .error, account := "u", email := "e", message := "boom" }])
        (runStats 1
          [{ status := .success, account := "u", email := "e", message := "" }])).success
      + (mergeRetryStats
        (runStats 1
          [{ status := .error, account := "u", email := "e", message := "boom" }])
        (runStats 1
          [{ status := .success, account := "u", email := "e", message := "" }])).failed
      + (mergeRetryStats
        (runStats 1
          [{ status := .error, account := "u", email := "e", message := "boom" }])
        (runStats 1
          [{ status := .success, account := "u", email := "e", message := "" }])).errors
      = (1 : Int) + (1 : Int) := by
  refine ⟨?_, by decide, ?_, ?_⟩
  · exact (spec_C2_stats 2 1
      [{ status := .success, account := "u", email := "e", message := "" }]
      [{ status := .error, account := "u", email := "e", message := "boom" }]).1
  · exact (spec_C2_stats 1 1
      [{ status := .success, account := "u", email := "e", message := "" }]
      [{ status := .error, account := "u", email := "e", message := "boom" }]).2.2.1 rfl
  · exact ((spec_C2_stats 1 1
      [{ status := .error, account := "u", email := "e", message := "boom" }]
      [{ status := .success, account := "u", email := "e", message := "" }]).2.2.2
      rfl rfl).1

/-- Claim C3, counterexample: on a page where an available-slot
indicator matches (`a.available`) but the confirmation control is
missing, the thrown `Confirm button not found` is caught by
`bookAppointment`'s own catch, so `execute` records the outcome with
status `failed` — a business failure, not the `error` status the claim
predicts. -/
theorem spec_C3_counterexample :
    (executeBookingOutcome ({ username := "u", email := "e" } : Account)
        { calendarAppears := true, present := fun s => s == "a.available",
          confirmPresent := false, confNumber := "", confDate := "",
          confTime := "" }).status = SessionStatus.failed
    ∧ ¬ (executeBookingOutcome ({ username := "u", email := "e" } : Account)
        { calendarAppears := true, present := fun s => s == "a.available",
          confirmPresent := false, confNumber := "", confDate := "",
          confTime := "" }).status = SessionStatus.error
    ∧ slotSelectors.find? (fun s => s == "a.available") = some "a.available"
    ∧ (executeBookingOutcome ({ username := "u", email := "e" } : Account)
        { calendarAppears := true, present := fun s => s == "a.available",
          confirmPresent := false, confNumber := "", confDate := "",
          confTime := "" }).message = "Confirm button not found" := by
  refine ⟨by decide, by decide, by decide, by decide⟩

/-- Claim C3, amended: on a rendered result surface, if no available
slot indicator matches any selector in the ordered list the task's
outcome is the business failure `failed` with reason
`No slots available`; if an indicator is found but the confirmation
control is missing, the thrown `Confirm button not found` error is
caught inside `bookAppointment` and the task's outcome is likewise
`failed` with that reason — not `Errored`. -/
theorem spec_C3_booking_outcomes (a : Account) (page : BookingPage)
    (hcal : page.calendarAppears = true) :
    (slotSelectors.find? page.present = none →
      executeBookingOutcome a page
        = { status := .failed, account := a.username, email := a.email,
            message := "No slots available" })
    ∧ (∀ s, slotSelectors.find? page.present = some s →
        page.confirmPresent = false →
        executeBookingOutcome a page
          = { status := .failed, account := a.username, email := a.email,
              message := "Confirm button not found" }) := by
  unfold executeBookingOutcome bookAppointment classifyBookingResult
  rw [hcal]
  constructor
  · intro h
    rw [h]
    rfl
  · intro s hs hconf
    rw [hs, hconf]
    rfl

theorem spec_C3_witness :
    executeBookingOutcome ({ username := "u", email := "e" } : Account)
        { calendarAppears := true, present := fun _ => false,
          confirmPresent := true, confNumber := "", confDate := "",
          confTime := "" }
      = { status := .failed, account := "u", email := "e",
          message := "No slots available" }
    ∧ executeBookingOutcome ({ username := "u", email := "e" } : Account)
        { calendarAppears := true, present := fun s => s == "a.available",
          confirmPresent := false, confNumber := "", confDate := "",
          confTime := "" }
      = { status := .failed, account := "u", email := "e",
          message := "Confirm button not found" } := by
  constructor
  · exact (spec_C3_booking_outcomes ({ username := "u", email := "e" } : Account)
      { calendarAppears := true, present := fun _ => false,
        confirmPresent := true, confNumber := "", confDate := "",
        confTime := "" } rfl).1 (by decide)
  · exact (spec_C3_booking_outcomes ({ username := "u", email := "e" } : Account)
      { calendarAppears := true, present := fun s => s == "a.available",
        confirmPresent := false, confNumber := "", confDate := "",
        confTime := "" } rfl).2 "a.available" (by decide) rfl

/-- Claim C4: batch fault isolation.  In a batch where exactly one
task faults (a caught throw before the timeout, or a rejected callback
promise) and every other task resolves before the timeout with a
success or failed result, the batch still yields one outcome per task:
exactly 1 with status `error` and N-1 with status `success`/`failed`.
A rejection with no message (incomplete internal handling) is recorded
as an `error` outcome with the `Unknown error` message. -/
theorem spec_C4_fault_isolation (timeoutMs : Nat) (a : Account)
    (bad : TaskBehavior) (l₁ l₂ : List (Account × TaskBehavior))
    (hbad : faultsAsError timeoutMs bad = true)
    (hrest : ∀ p ∈ l₁ ++ l₂, ∃ t r, p.2 = TaskBehavior.resolves t r
      ∧ t < timeoutMs ∧ (r.status = .success ∨ r.status = .failed)) :
    (batchOutcomes timeoutMs (l₁ ++ (a, bad) :: l₂)).length
        = l₁.length + 1 + l₂.length
    ∧ (batchOutcomes timeoutMs (l₁ ++ (a, bad) :: l₂)).countP
        (fun r => r.status == .error) = 1
    ∧ (batchOutcomes timeoutMs (l₁ ++ (a, bad) :: l₂)).countP
        (fun r => r.status == .success || r.status == .failed)
        = l₁.length + l₂.length
    ∧ (∀ m, bad = TaskBehavior.rejects m →
        batchOutcomes timeoutMs [(a, bad)]
          = [{ status := .error, account := a.username, email := a.email,
               message := m.getD "Unknown error" }]) := by
  have hmid : (settleResult a (sessionPromiseOutcome timeoutMs a bad)).status
      = SessionStatus.error := by
    cases bad with
    | resolves t r => simp [faultsAsError] at hbad
    | raises t m =>
        simp only [faultsAsError, decide_eq_true_eq] at hbad
        simp only [sessionPromiseOutcome, settleResult]
        rw [if_pos hbad]
    | rejects m => rfl
    | never => simp [faultsAsError] at hbad
  have hgood : ∀ p ∈ l₁ ++ l₂,
      ((settleResult p.1 (sessionPromiseOutcome timeoutMs p.1 p.2)).status
          = SessionStatus.success
        ∨ (settleResult p.1 (sessionPromiseOutcome timeoutMs p.1 p.2)).status
          = SessionStatus.failed) := by
    intro p hp
    obtain ⟨t, r, hres, ht, hs⟩ := hrest p hp
    rw [hres]
    simp only [sessionPromiseOutcome, settleResult]
    rw [if_pos ht]
    exact hs
  have hgood₁ : ∀ p ∈ l₁,
      ((settleResult p.1 (sessionPromiseOutcome timeoutMs p.1 p.2)).status
          = SessionStatus.success
        ∨ (settleResult p.1 (sessionPromiseOutcome timeoutMs p.1 p.2)).status
          = SessionStatus.failed) :=
    fun p hp => hgood p (List.mem_append_left _ hp)
  have hgood₂ : ∀ p ∈ l₂,
      ((settleResult p.1 (sessionPromiseOutcome timeoutMs p.1 p.2)).status
          = SessionStatus.success
        ∨ (settleResult p.1 (sessionPromiseOutcome timeoutMs p.1 p.2)).status
          = SessionStatus.failed) :=
    fun p hp => hgood p (List.mem_append_right _ hp)
  refine ⟨by simp [batchOutcomes]; omega, ?_, ?_, ?_⟩
  · unfold batchOutcomes
    rw [List.map_append, List.map_cons, List.countP_append, List.countP_cons]
    have hz₁ : (List.map
        (fun t => settleResult t.1 (sessionPromiseOutcome timeoutMs t.1 t.2)) l₁).countP
          (fun r => r.status == SessionStatus.error) = 0 := by
      rw [List.countP_map, List.countP_eq_zero]
      intro p hp
      rcases hgood₁ p hp with h | h <;> simp [Function.comp, h]
    have hz₂ : (List.map
        (fun t => settleResult t.1 (sessionPromiseOutcome timeoutMs t.1 t.2)) l₂).countP
          (fun r => r.status == SessionStatus.error) = 0 := by
      rw [List.countP_map, List.countP_eq_zero]
      intro p hp
      rcases hgood₂ p hp with h | h <;> simp [Function.comp, h]
    rw [hz₁, hz₂]
    simp [hmid]
  · unfold batchOutcomes
    rw [List.map_append, List.map_cons, List.countP_append, List.countP_cons]
    have hf₁ : (List.map
        (fun t => settleResult t.1 (sessionPromiseOutcome timeoutMs t.1 t.2)) l₁).countP
          (fun r => r.status == SessionStatus.success
            || r.status == SessionStatus.failed)
          = l₁.length := by
      rw [List.countP_map]
      rw [List.countP_eq_length]
      intro p hp
      rcases hgood₁ p hp with h | h <;> simp [Function.comp, h]
    have hf₂ : (List.map
        (fun t => settleResult t.1 (sessionPromiseOutcome timeoutMs t.1 t.2)) l₂).countP
          (fun r => r.status == SessionStatus.success
            || r.status == SessionStatus.failed)
          = l₂.length := by
      rw [List.countP_map]
      rw [List.countP_eq_length]
      intro p hp
      rcases hgood₂ p hp with h | h <;> simp [Function.comp, h]
    rw [hf₁, hf₂]
    simp [hmid]
  · intro m hm
    rw [hm]
    rfl

theorem spec_C4_witness :
    faultsAsError 100 (TaskBehavior.raises 1 "boom") = true
    ∧ (batchOutcomes 100
        ([({ username := "u1", email := "e1" },
           TaskBehavior.resolves 5
             { status := .success, account := "u1", email := "e1", message := "" })]
          ++ (({ username := "u2", email := "e2" } : Account),
              TaskBehavior.raises 1 "boom")
          :: [({ username := "u3", email := "e3" },
               TaskBehavior.resolves 7
                 { status := .failed, account := "u3", email := "e3",
                   message := "No slots available" })])).countP
        (fun r => r.status == .error) = 1
    ∧ (batchOutcomes 100
        ([({ username := "u1", email := "e1" },
           TaskBehavior.resolves 5
             { status := .success, account := "u1", email := "e1", message := "" })]
          ++ (({ username := "u2", email := "e2" } : Account),
              TaskBehavior.raises 1 "boom")
          :: [({ username := "u3", email := "e3" },
               TaskBehavior.resolves 7
                 { status := .failed, account := "u3", email := "e3",
                   message := "No slots available" })])).countP
        (fun r => r.status == .success || r.status == .failed) = 2 := by
  have h := spec_C4_fault_isolation 100 ({ username := "u2", email := "e2" } : Account)
    (TaskBehavior.raises 1 "boom")
    [({ username := "u1", email := "e1" },
      TaskBehavior.resolves 5
        { status := .success, account := "u1", email := "e1", message := "" })]
    [({ username := "u3", email := "e3" },
      TaskBehavior.resolves 7
        { status := .failed, account := "u3", email := "e3",
          message := "No slots available" })]
    (by decide)
    (by
      intro p hp
      simp only [List.cons_append, List.nil_append, List.mem_cons,
        List.not_mem_nil, or_false] at hp
      rcases hp with rfl | rfl
      · exact ⟨5, _, rfl, by omega, Or.inl rfl⟩
      · exact ⟨7, _, rfl, by omega, Or.inr rfl⟩)
  exact ⟨by decide, h.2.1, h.2.2.1⟩

/-- Claim C5: a task that does not settle before the shared per-batch
timeout (it never settles, or settles only at or after the timeout)
is recorded exactly as the timeout result — the source's status
`timeout`, the spec's `Errored{kind: timeout}` — with message
`Session timeout`; `processSessionResult` classifies it into the
`errors` counter, and the batch still completes with the outcomes of
every other task unchanged. -/
theorem spec_C5_timeout (timeoutMs : Nat) (a : Account) (bad : TaskBehavior)
    (l₁ l₂ : List (Account × TaskBehavior))
    (hbad : producesOutcomeBefore timeoutMs bad = false) :
    batchOutcomes timeoutMs (l₁ ++ (a, bad) :: l₂)
      = batchOutcomes timeoutMs l₁ ++ timeoutResult a :: batchOutcomes timeoutMs l₂
    ∧ timeoutResult a
        = { status := .timeout, account := a.username,
            email := a.email, message := "Session timeout" }
    ∧ (∀ st, (processSessionResult st (timeoutResult a)).errors = st.errors + 1
        ∧ (processSessionResult st (timeoutResult a)).success = st.success
        ∧ (processSessionResult st (timeoutResult a)).failed = st.failed)
    ∧ (batchOutcomes timeoutMs (l₁ ++ (a, bad) :: l₂)).length
        = l₁.length + 1 + l₂.length := by
  have hmid : settleResult a (sessionPromiseOutcome timeoutMs a bad)
      = timeoutResult a := by
    cases bad with
    | resolves t r =>
        simp only [producesOutcomeBefore, decide_eq_false_iff_not, Nat.not_lt] at hbad
        simp only [sessionPromiseOutcome, settleResult]
        rw [if_neg (Nat.not_lt.mpr hbad)]
    | raises t m =>
        simp only [producesOutcomeBefore, decide_eq_false_iff_not, Nat.not_lt] at hbad
        simp only [sessionPromiseOutcome, settleResult]
        rw [if_neg (Nat.not_lt.mpr hbad)]
    | rejects m => simp [producesOutcomeBefore] at hbad
    | never => rfl
  refine ⟨?_, rfl, ?_, by simp [batchOutcomes]; omega⟩
  · unfold batchOutcomes
    rw [List.map_append, List.map_cons]
    dsimp only
    rw [hmid]
  · intro st
    refine ⟨?_, ?_, ?_⟩ <;> simp [processSessionResult, timeoutResult]

theorem spec_C5_witness :
    producesOutcomeBefore 100 TaskBehavior.never = false
    ∧ batchOutcomes 100
        [({ username := "u1", email := "e1" },
          TaskBehavior.resolves 5
            { status := .success, account := "u1", email := "e1", message := "" }),
         ({ username := "u2", email := "e2" }, TaskBehavior.never)]
      = batchOutcomes 100
          [({ username := "u1", email := "e1" },
            TaskBehavior.resolves 5
              { status := .success, account := "u1", email := "e1", message := "" })]
        ++ timeoutResult ({ username := "u2", email := "e2" } : Account)
        :: batchOutcomes 100 [] := by
  refine ⟨by decide, ?_⟩
  exact (spec_C5_timeout 100 ({ username := "u2", email := "e2" } : Account)
    TaskBehavior.never
    [({ username := "u1", email := "e1" },
      TaskBehavior.resolves 5
        { status := .success, account := "u1", email := "e1", message := "" })]
    [] (by decide)).1

/-- Claim C6, counterexample: with two loaded accounts sharing the
username `u`, where the first account's parent outcome was `success`
and the second's was `error`, the first-match username lookup of
`retryFailed` selects the first account — whose parent outcome was
Success — and never the account that actually errored, contradicting
the claim's "never an account whose parent outcome was Failed or
Success". -/
theorem spec_C6_counterexample :
    retryAccounts
        [{ username := "u", email := "e1" }, { username := "u", email := "e2" }]
        [{ status := .success, account := "u", email := "e1", message := "" },
         { status := .error, account := "u", email := "e2", message := "boom" }]
      = [{ username := "u", email := "e1" }]
    ∧ ((([{ username := "u", email := "e1" },
          { username := "u", email := "e2" }] : List Account).zip
        ([{ status := .success, account := "u", email := "e1", message := "" },
          { status := .error, account := "u", email := "e2",
            message := "boom" }] : List SessionResult)).filter
          (fun p => isRetryStatus p.2)).map Prod.fst
      = [{ username := "u", email := "e2" }]
    ∧ ({ username := "u", email := "e1" } : Account)
        ≠ { username := "u", email := "e2" } := by
  refine ⟨by decide, by decide, by decide⟩

/-- Claim C6, amended: provided every result records the username of
its own account (position-wise) and the loaded usernames are pairwise
distinct, the retry pass selects exactly the accounts whose parent
outcome had status `error` or `timeout`, in order — never an account
whose parent outcome was `failed` or `success`.  (With duplicate
usernames the first-match lookup can instead pick a same-named account
whose own outcome was Success, as the counterexample shows.  The merge
of the retry stats and the absence of recursion are visible in
`mergeRetryStats` and `finalStats`: the retry pass invokes a plain run
and `retryFailed` is called at most once, from `main`.) -/
theorem spec_C6_retry_selection (accounts : List Account)
    (results : List SessionResult)
    (hlen : results.length = accounts.length)
    (hcorr : ∀ p ∈ accounts.zip results, p.2.account = p.1.username)
    (hnodup : (accounts.map (fun x => x.username)).Nodup) :
    retryAccounts accounts results
      = ((accounts.zip results).filter (fun p => isRetryStatus p.2)).map
          Prod.fst := by
  have hsnd : (accounts.zip results).map Prod.snd = results :=
    List.map_snd_zip accounts results (by omega)
  have hfind : ∀ p ∈ accounts.zip results,
      accounts.find? (fun x => x.username == p.2.account) = some p.1 := by
    intro p hp
    rw [hcorr p hp]
    exact find_username_self accounts p.1 hnodup (List.of_mem_zip hp).1
  unfold retryAccounts
  conv_lhs => rw [← hsnd]
  exact retry_filterMap_zip accounts _ hfind

theorem spec_C6_witness :
    retryAccounts
        [{ username := "u1", email := "e1" }, { username := "u2", email := "e2" },
         { username := "u3", email := "e3" }]
        [{ status := .success, account := "u1", email := "e1", message := "" },
         { status := .failed, account := "u2", email := "e2",
           message := "No slots available" },
         { status := .timeout, account := "u3", email := "e3",
           message := "Session timeout" }]
      = [{ username := "u3", email := "e3" }] := by
  have h := spec_C6_retry_selection
    [{ username := "u1", email := "e1" }, { username := "u2", email := "e2" },
     { username := "u3", email := "e3" }]
    [{ status := .success, account := "u1", email := "e1", message := "" },
     { status := .failed, account := "u2", email := "e2",
       message := "No slots available" },
     { status := .timeout, account := "u3", email := "e3",
       message := "Session timeout" }]
    (by decide) (by decide) (by decide)
  rw [h]
  decide

/-- Claim C7: parsing `host:9000:authtoken:wifi;al;` yields the
SOAX-style record (host `host`, port text `9000`, username `authtoken`,
password empty, region tag `al`), and parsing `host:80:user:pass`
yields the standard record (username `user`, password `pass`, region
`unknown`). -/
theorem spec_C7_parse_layouts :
    parseProxy "host:9000:authtoken:wifi;al;" =
      .ok { host := "host", port := "9000", username := "authtoken", password := "",
            country := "al", format := "soax",
            original := "host:9000:authtoken:wifi;al;" }
    ∧ parseProxy "host:80:user:pass" =
      .ok { host := "host", port := "80", username := "user", password := "pass",
            country := "unknown", format := "standard",
            original := "host:80:user:pass" } := by
  exact ⟨by decide, by decide⟩

/-- Claim C8: proxy-line parsing fails if and only if the trimmed line
has fewer than 3 colon-delimited fields, and a line with exactly 3
fields parses as the standard layout with empty password and region
`unknown`. -/
theorem spec_C8_parse_error_iff (s : String) :
    ((∃ e, parseProxy s = .error e) ↔ (jsSplit ':' (jsTrim s)).length < 3)
    ∧ ((jsSplit ':' (jsTrim s)).length = 3 →
        ∃ p, parseProxy s = .ok p ∧ p.password = "" ∧ p.country = "unknown"
          ∧ p.format = "standard") := by
  constructor
  · constructor
    · rintro ⟨e, he⟩
      by_contra h
      simp only [parseProxy] at he
      rw [if_neg h] at he
      split at he <;> simp at he
    · intro h
      exact ⟨_, by unfold parseProxy; rw [if_pos h]⟩
  · intro h3
    have hlt : ¬ (jsSplit ':' (jsTrim s)).length < 3 := by omega
    have hfourth : (jsSplit ':' (jsTrim s)).getD 3 "" = "" :=
      List.getD_eq_default _ _ (by omega)
    have hok : parseProxy s = .ok
        { host := (jsSplit ':' (jsTrim s)).getD 0 "",
          port := (jsSplit ':' (jsTrim s)).getD 1 "",
          username := (jsSplit ':' (jsTrim s)).getD 2 "",
          password := "", country := "unknown", format := "standard",
          original := s } := by
      simp only [parseProxy]
      rw [if_neg hlt]
      rw [hfourth]
      rfl
    exact ⟨_, hok, rfl, rfl, rfl⟩

theorem spec_C8_witness :
    (∃ p, parseProxy "a:1:u" = .ok p ∧ p.password = "" ∧ p.country = "unknown"
      ∧ p.format = "standard")
    ∧ (∃ e, parseProxy "a:1" = .error e) := by
  constructor
  · exact (spec_C8_parse_error_iff "a:1:u").2 (by decide)
  · exact (spec_C8_parse_error_iff "a:1").1.mpr (by decide)

/-- Claim C9: the process exit code is 0 exactly when at least one
success outcome was recorded across the whole process (parent run plus
the retry run when the retry pass was triggered), and 1 otherwise —
including when configuration validation throws or the account list is
empty, both of which abort before any task starts. -/
theorem spec_C9_exit_code (sc : MainScenario) :
    mainExitCode sc = if 0 < recordedSuccesses sc then 0 else 1 := by
  have hfin : (finalStats sc).success
      = (countSuccess sc.parentResults : Int)
        + (if 0 < sc.retryAttempts ∧ 0 < (parentStats sc).errors then
            (countSuccess sc.retryResults : Int)
          else 0) := by
    unfold finalStats
    split
    · unfold mergeRetryStats parentStats runStats
      simp only
      rw [foldl_stats_success, foldl_stats_success]
      simp_all [initStats]
    · unfold parentStats runStats
      rw [foldl_stats_success]
      simp_all [initStats]
  cases hcv : sc.configValid with
  | false =>
      have h1 : mainExitCode sc = 1 := by
        unfold mainExitCode
        rw [hcv]
        rfl
      have h2 : recordedSuccesses sc = 0 := by
        unfold recordedSuccesses
        rw [hcv]
        rfl
      rw [h1, h2]
      rfl
  | true =>
      by_cases hlen : sc.accounts.length = 0
      · have h1 : mainExitCode sc = 1 := by
          unfold mainExitCode
          rw [hcv]
          simp [hlen]
        have h2 : recordedSuccesses sc = 0 := by
          unfold recordedSuccesses
          rw [hcv]
          simp [hlen]
        rw [h1, h2]
        rfl
      · have hmain : mainExitCode sc
            = if 0 < (finalStats sc).success then 0 else 1 := by
          unfold mainExitCode
          rw [hcv]
          simp [hlen]
        by_cases hretry : 0 < sc.retryAttempts ∧ 0 < (parentStats sc).errors
        · have hrec : recordedSuccesses sc
              = countSuccess sc.parentResults + countSuccess sc.retryResults := by
            unfold recordedSuccesses
            rw [hcv]
            simp [hlen, hretry]
          rw [if_pos hretry] at hfin
          rw [hmain, hrec]
          refine if_congr ?_ rfl rfl
          omega
        · have hrec : recordedSuccesses sc = countSuccess sc.parentResults := by
            unfold recordedSuccesses
            rw [hcv]
            simp [hlen, hretry]
          rw [if_neg hretry] at hfin
          rw [hmain, hrec]
          refine if_congr ?_ rfl rfl
          omega

/-- Claim C10: the retry pass matches each error/timeout outcome's
recorded account name against the loaded account list with a
first-match lookup on `username`: an error outcome whose recorded name
matches no loaded username contributes nothing (it is silently
dropped), and when the matching account is preceded only by
non-matching accounts, that first match is the account retried —
so with several same-named accounts only the first is ever selected. -/
theorem spec_C10_retry_lookup :
    (∀ (accounts : List Account) (r : SessionResult)
        (rest : List SessionResult),
      isRetryStatus r = true →
      (∀ a ∈ accounts, ¬ a.username = r.account) →
      retryAccounts accounts (r :: rest) = retryAccounts accounts rest)
    ∧ (∀ (l₁ : List Account) (a₁ : Account) (l₂ : List Account)
        (r : SessionResult) (rest : List SessionResult),
      isRetryStatus r = true →
      (∀ a ∈ l₁, ¬ a.username = r.account) →
      a₁.username = r.account →
      retryAccounts (l₁ ++ a₁ :: l₂) (r :: rest)
        = a₁ :: retryAccounts (l₁ ++ a₁ :: l₂) rest) := by
  constructor
  · intro accounts r rest hr hnone
    unfold retryAccounts
    rw [List.filter_cons, if_pos hr, List.filterMap_cons]
    have hfind : accounts.find? (fun a => a.username == r.account) = none :=
      List.find?_eq_none.mpr (fun a ha => by simp [hnone a ha])
    rw [hfind]
  · intro l₁ a₁ l₂ r rest hr hl₁ ha₁
    unfold retryAccounts
    rw [List.filter_cons, if_pos hr, List.filterMap_cons]
    have hleft : l₁.find? (fun a => a.username == r.account) = none :=
      List.find?_eq_none.mpr (fun a ha => by simp [hl₁ a ha])
    have hfind : (l₁ ++ a₁ :: l₂).find? (fun a => a.username == r.account)
        = some a₁ := by
      rw [List.find?_append, hleft]
      rw [List.find?_cons_of_pos _ (by simp [ha₁])]
      rfl
    rw [hfind]

theorem spec_C10_witness :
    retryAccounts
        [{ username := "w", email := "e0" }]
        [{ status := .error, account := "zz", email := "z", message := "" },
         { status := .error, account := "w", email := "e0", message := "" }]
      = retryAccounts
          [{ username := "w", email := "e0" }]
          [{ status := .error, account := "w", email := "e0", message := "" }]
    ∧ retryAccounts
        ([] ++ ({ username := "d", email := "e1" } : Account)
          :: [{ username := "d", email := "e2" }])
        [{ status := .error, account := "d", email := "x", message := "" }]
      = ({ username := "d", email := "e1" } : Account)
        :: retryAccounts
            ([] ++ ({ username := "d", email := "e1" } : Account)
              :: [{ username := "d", email := "e2" }]) [] := by
  constructor
  · exact spec_C10_retry_lookup.1
      [{ username := "w", email := "e0" }]
      { status := .error, account := "zz", email := "z", message := "" }
      [{ status := .error, account := "w", email := "e0", message := "" }]
      (by decide) (by decide)
  · exact spec_C10_retry_lookup.2 []
      ({ username := "d", email := "e1" } : Account)
      [{ username := "d", email := "e2" }]
      { status := .error, account := "d", email := "x", message := "" }
      [] (by decide) (by decide) (by decide)

end VisaBooking
